import Mathlib

/-!
Verification of the tuple library (`src/tuples/src/lib.rs`).

The Rust code works on `f64`. We embed `f64` values as the type `FP`:
finite values are carried as exact rationals (the finite constructor with
argument `0` is IEEE `+0.0`), and the special values `-0.0`, `+inf`,
`-inf` and `NaN` are separate constructors. Arithmetic on finite values
is exact rational arithmetic: none of the properties verified here
involves rounding (all concrete inputs are small and the claims speak of
real numbers), so this idealisation is faithful for every statement
below. The special-value and signed-zero behaviour of each operation
follows IEEE 754 (round-to-nearest sign conventions for exact zero
results), which is what Rust's `f64` operators implement.
-/

/-- Embedding of an `f64` value: an exact finite rational (where `fin 0`
is `+0.0`), negative zero, the two infinities, or NaN. -/
inductive FP where
  | fin : ℚ → FP
  | negZero : FP
  | inf : FP
  | negInf : FP
  | nan : FP
deriving DecidableEq, Repr

/-- IEEE 754 equality (Rust `==` on `f64`): NaN is equal to nothing,
`-0.0 == 0.0`, finite values compare as rationals. -/
def FP.ieeeEq : FP → FP → Bool
  | .fin a, .fin b => decide (a = b)
  | .fin a, .negZero => decide (a = 0)
  | .negZero, .fin b => decide (b = 0)
  | .negZero, .negZero => true
  | .inf, .inf => true
  | .negInf, .negInf => true
  | _, _ => false

/-- IEEE 754 strict less-than (Rust `<` on `f64`): any comparison with
NaN is false, `-0.0` and `+0.0` are not less than each other. -/
def FP.ieeeLt : FP → FP → Bool
  | .nan, _ => false
  | _, .nan => false
  | .fin a, .fin b => decide (a < b)
  | .fin a, .negZero => decide (a < 0)
  | .negZero, .fin b => decide (0 < b)
  | .negZero, .negZero => false
  | .fin _, .inf => true
  | .negZero, .inf => true
  | .negInf, .inf => true
  | .inf, .inf => false
  | .inf, _ => false
  | .negInf, .negInf => false
  | .negInf, _ => true
  | _, .negInf => false

/-- IEEE 754 absolute value (`f64::abs`): clears the sign, maps NaN to
NaN and `-0.0` to `+0.0`. -/
def FP.fabs : FP → FP
  | .fin q => .fin |q|
  | .negZero => .fin 0
  | .inf => .inf
  | .negInf => .inf
  | .nan => .nan

/-- IEEE 754 negation (Rust unary `-` on `f64`): flips the sign bit, so
`-(+0.0) = -0.0` and `-(-0.0) = +0.0`. -/
def FP.fneg : FP → FP
  | .fin q => if q = 0 then .negZero else .fin (-q)
  | .negZero => .fin 0
  | .inf => .negInf
  | .negInf => .inf
  | .nan => .nan

/-- IEEE 754 addition (Rust `+` on `f64`), exact on finite values.
`inf + (-inf) = NaN`; `-0.0 + -0.0 = -0.0`; an exact zero sum of
finite operands is `+0.0` (round-to-nearest sign rule). -/
def FP.fadd : FP → FP → FP
  | .nan, _ => .nan
  | _, .nan => .nan
  | .inf, .negInf => .nan
  | .negInf, .inf => .nan
  | .inf, _ => .inf
  | _, .inf => .inf
  | .negInf, _ => .negInf
  | _, .negInf => .negInf
  | .negZero, .negZero => .negZero
  | .negZero, .fin b => .fin b
  | .fin a, .negZero => .fin a
  | .fin a, .fin b => .fin (a + b)

/-- IEEE 754 subtraction (Rust `-` on `f64`): `a - b = a + (-b)`
exactly, per IEEE 754. -/
def FP.fsub (a b : FP) : FP := FP.fadd a (FP.fneg b)

/-- IEEE 754 multiplication (Rust `*` on `f64`), exact on finite
values. `0 * inf = NaN`; an exact zero product carries the XOR of the
operand signs. -/
def FP.fmul : FP → FP → FP
  | .nan, _ => .nan
  | _, .nan => .nan
  | .inf, .inf => .inf
  | .inf, .negInf => .negInf
  | .negInf, .inf => .negInf
  | .negInf, .negInf => .inf
  | .inf, .negZero => .nan
  | .negZero, .inf => .nan
  | .negInf, .negZero => .nan
  | .negZero, .negInf => .nan
  | .inf, .fin b => if b = 0 then .nan else if b < 0 then .negInf else .inf
  | .fin a, .inf => if a = 0 then .nan else if a < 0 then .negInf else .inf
  | .negInf, .fin b => if b = 0 then .nan else if b < 0 then .inf else .negInf
  | .fin a, .negInf => if a = 0 then .nan else if a < 0 then .inf else .negInf
  | .negZero, .negZero => .fin 0
  | .negZero, .fin b => if b < 0 then .fin 0 else .negZero
  | .fin a, .negZero => if a < 0 then .fin 0 else .negZero
  | .fin a, .fin b =>
      if a * b = 0 then (if (a < 0) ≠ (b < 0) then .negZero else .fin 0)
      else .fin (a * b)

/-- IEEE 754 division (Rust `/` on `f64`), exact on finite values.
`0/0`, `inf/inf` are NaN; a nonzero finite value divided by a zero is a
signed infinity; a finite value divided by an infinity is a signed
zero. -/
def FP.fdiv : FP → FP → FP
  | .nan, _ => .nan
  | _, .nan => .nan
  | .inf, .inf => .nan
  | .inf, .negInf => .nan
  | .negInf, .inf => .nan
  | .negInf, .negInf => .nan
  | .inf, .fin b => if b < 0 then .negInf else .inf
  | .inf, .negZero => .negInf
  | .negInf, .fin b => if b < 0 then .inf else .negInf
  | .negInf, .negZero => .inf
  | .fin a, .inf => if a < 0 then .negZero else .fin 0
  | .negZero, .inf => .negZero
  | .fin a, .negInf => if a < 0 then .fin 0 else .negZero
  | .negZero, .negInf => .fin 0
  | .negZero, .negZero => .nan
  | .negZero, .fin b => if b = 0 then .nan else if b < 0 then .fin 0 else .negZero
  | .fin a, .negZero =>
      if a = 0 then .nan else if a < 0 then .inf else .negInf
  | .fin a, .fin b =>
      if b = 0 then (if a = 0 then .nan else if a < 0 then .negInf else .inf)
      else .fin (a / b)

/-- A value is finite when it is neither an infinity nor NaN. -/
def FP.isFinite : FP → Bool
  | .fin _ => true
  | .negZero => true
  | _ => false

/-- A value is an infinity or NaN. -/
def FP.isInfOrNan : FP → Bool
  | .inf => true
  | .negInf => true
  | .nan => true
  | _ => false

/-- The tolerance constant `EPS: f64 = 1e-5` of the source. -/
def EPS : FP := .fin (1 / 100000)

/-- The `Tuple` struct of the source: four `f64` components. -/
structure Tuple where
  x : FP
  y : FP
  z : FP
  w : FP
deriving DecidableEq, Repr

/-- `impl PartialEq for Tuple`: each component pair differs by strictly
less than `EPS` in absolute value. -/
def Tuple.eq (a b : Tuple) : Bool :=
  (FP.fsub a.x b.x).fabs.ieeeLt EPS
    && (FP.fsub a.y b.y).fabs.ieeeLt EPS
    && (FP.fsub a.z b.z).fabs.ieeeLt EPS
    && (FP.fsub a.w b.w).fabs.ieeeLt EPS

/-- `impl Add for Tuple`: component-wise sum. -/
def Tuple.add (a b : Tuple) : Tuple :=
  ⟨FP.fadd a.x b.x, FP.fadd a.y b.y, FP.fadd a.z b.z, FP.fadd a.w b.w⟩

/-- `impl Sub for Tuple`: component-wise difference. -/
def Tuple.sub (a b : Tuple) : Tuple :=
  ⟨FP.fsub a.x b.x, FP.fsub a.y b.y, FP.fsub a.z b.z, FP.fsub a.w b.w⟩

/-- `impl Neg for Tuple`: component-wise negation. -/
def Tuple.neg (a : Tuple) : Tuple :=
  ⟨a.x.fneg, a.y.fneg, a.z.fneg, a.w.fneg⟩

/-- `impl Mul for Tuple` (tuple times `f64` scalar `rhs`): each
component is `rhs * component`. -/
def Tuple.mul (a : Tuple) (rhs : FP) : Tuple :=
  ⟨FP.fmul rhs a.x, FP.fmul rhs a.y, FP.fmul rhs a.z, FP.fmul rhs a.w⟩

/-- `impl Mul for f64` (scalar `self` times tuple `rhs`): each
component is `self * component`. -/
def FP.mulTuple (self : FP) (rhs : Tuple) : Tuple :=
  ⟨FP.fmul self rhs.x, FP.fmul self rhs.y, FP.fmul self rhs.z, FP.fmul self rhs.w⟩

/-- `impl Div for Tuple` (tuple divided by `f64` scalar `rhs`): each
component is `component / rhs`. -/
def Tuple.div (a : Tuple) (rhs : FP) : Tuple :=
  ⟨FP.fdiv a.x rhs, FP.fdiv a.y rhs, FP.fdiv a.z rhs, FP.fdiv a.w rhs⟩

/-- `Tuple::new`: the four components verbatim. -/
def Tuple.new (x y z w : FP) : Tuple := ⟨x, y, z, w⟩

/-- `Tuple::new_point`: `w = 1.0`. -/
def Tuple.new_point (x y z : FP) : Tuple := ⟨x, y, z, .fin 1⟩

/-- `Tuple::new_vector`: `w = 0.0`. -/
def Tuple.new_vector (x y z : FP) : Tuple := ⟨x, y, z, .fin 0⟩

/-- `Tuple::is_point`: exact IEEE comparison `w == 1.0`. -/
def Tuple.is_point (t : Tuple) : Bool := t.w.ieeeEq (.fin 1)

/-- `Tuple::is_vector`: exact IEEE comparison `w == 0.0`. -/
def Tuple.is_vector (t : Tuple) : Bool := t.w.ieeeEq (.fin 0)

/-! ### Evaluation lemmas for the embedding -/

theorem FP.fsub_fin_fin (a b : ℚ) :
    FP.fsub (.fin a) (.fin b) = .fin (a - b) := by
  by_cases h : b = 0
  · subst h; simp [FP.fsub, FP.fneg, FP.fadd]
  · simp [FP.fsub, FP.fneg, h, FP.fadd, sub_eq_add_neg]

theorem FP.fabs_fin (q : ℚ) : (FP.fin q).fabs = .fin |q| := rfl

theorem FP.ieeeLt_fin_EPS (q : ℚ) :
    (FP.fin q).ieeeLt EPS = decide (q < 1 / 100000) := rfl

theorem Tuple.eq_fin_iff (px py pz pw qx qy qz qw : ℚ) :
    Tuple.eq ⟨.fin px, .fin py, .fin pz, .fin pw⟩
        ⟨.fin qx, .fin qy, .fin qz, .fin qw⟩ = true ↔
      (|px - qx| < 1 / 100000 ∧ |py - qy| < 1 / 100000 ∧
        |pz - qz| < 1 / 100000 ∧ |pw - qw| < 1 / 100000) := by
  simp [Tuple.eq, FP.fsub_fin_fin, FP.fabs_fin, FP.ieeeLt_fin_EPS,
    Bool.and_eq_true, and_assoc]

theorem FP.fabs_fsub_comm (a b : FP) : (a.fsub b).fabs = (b.fsub a).fabs := by
  cases a <;> cases b <;>
    simp [FP.fsub, FP.fneg, FP.fadd, FP.fabs] <;>
    split_ifs <;>
    simp_all [FP.fadd, FP.fabs, ← sub_eq_add_neg, abs_sub_comm]

theorem FP.lt_EPS_refl (a : FP) (h : a.isFinite = true) :
    (a.fsub a).fabs.ieeeLt EPS = true := by
  cases a with
  | fin q =>
      rw [FP.fsub_fin_fin, FP.fabs_fin, FP.ieeeLt_fin_EPS]
      norm_num
  | negZero =>
      show (FP.fin |0|).ieeeLt EPS = true
      rw [FP.ieeeLt_fin_EPS]
      norm_num
  | inf => simp [FP.isFinite] at h
  | negInf => simp [FP.isFinite] at h
  | nan => simp [FP.isFinite] at h

theorem Tuple.eq_self_of_finite (t : Tuple) (hx : t.x.isFinite = true)
    (hy : t.y.isFinite = true) (hz : t.z.isFinite = true)
    (hw : t.w.isFinite = true) : t.eq t = true := by
  simp [Tuple.eq, FP.lt_EPS_refl _ hx, FP.lt_EPS_refl _ hy,
    FP.lt_EPS_refl _ hz, FP.lt_EPS_refl _ hw]

theorem Tuple.eq_comm (a b : Tuple) : a.eq b = b.eq a := by
  simp only [Tuple.eq, FP.fabs_fsub_comm]

theorem Tuple.is_point_iff (t : Tuple) : t.is_point = true ↔ t.w = .fin 1 := by
  cases h : t.w <;> simp [Tuple.is_point, FP.ieeeEq, h]

theorem Tuple.is_vector_iff (t : Tuple) :
    t.is_vector = true ↔ (t.w = .fin 0 ∨ t.w = .negZero) := by
  cases h : t.w <;> simp [Tuple.is_vector, FP.ieeeEq, h]

theorem FP.fmul_fin_isFinite (s q : ℚ) :
    (FP.fmul (.fin s) (.fin q)).isFinite = true := by
  simp only [FP.fmul]
  split_ifs <;> simp [FP.isFinite]

theorem FP.fmul_fin_near (s q : ℚ) :
    ((FP.fmul (.fin s) (.fin q)).fsub (.fin (s * q))).fabs.ieeeLt EPS = true := by
  by_cases h : s * q = 0
  · by_cases hs : (s < 0) ≠ (q < 0)
    · have h1 : FP.fmul (.fin s) (.fin q) = .negZero := by simp [FP.fmul, h, hs]
      rw [h1, h]
      show (FP.fadd .negZero (FP.fneg (.fin 0))).fabs.ieeeLt EPS = true
      simp [FP.fneg, FP.fadd, FP.fabs]
      rw [FP.ieeeLt_fin_EPS]
      norm_num
    · have h1 : FP.fmul (.fin s) (.fin q) = .fin 0 := by simp [FP.fmul, h, hs]
      rw [h1, h, FP.fsub_fin_fin, FP.fabs_fin, FP.ieeeLt_fin_EPS]
      norm_num
  · have h1 : FP.fmul (.fin s) (.fin q) = .fin (s * q) := by simp [FP.fmul, h]
    rw [h1, FP.fsub_fin_fin, FP.fabs_fin, FP.ieeeLt_fin_EPS]
    norm_num

/-! ### Claim theorems -/

/-- C1: two tuples compare equal under `PartialEq` exactly when every
one of the four components differs from its counterpart by strictly
less than `1e-5` in absolute value; equivalently, a difference of
`1e-5` or more in any component makes them unequal. -/
theorem tupleEq_iff_all_components_within_EPS
    (px py pz pw qx qy qz qw : ℚ) :
    Tuple.eq ⟨.fin px, .fin py, .fin pz, .fin pw⟩
        ⟨.fin qx, .fin qy, .fin qz, .fin qw⟩ = true ↔
      (|px - qx| < 1 / 100000 ∧ |py - qy| < 1 / 100000 ∧
        |pz - qz| < 1 / 100000 ∧ |pw - qw| < 1 / 100000) :=
  Tuple.eq_fin_iff px py pz pw qx qy qz qw

/-- C2: `is_point` holds exactly when `w` is IEEE-equal to `1.0` (the
sole such value is the finite rational `1`), and `is_vector` exactly
when `w` is IEEE-equal to `0.0` (the values `+0.0` and `-0.0`); both
are exact comparisons with no tolerance. -/
theorem isPoint_isVector_exact_w (t : Tuple) :
    (t.is_point = true ↔ t.w = .fin 1) ∧
      (t.is_vector = true ↔ (t.w = .fin 0 ∨ t.w = .negZero)) :=
  ⟨t.is_point_iff, t.is_vector_iff⟩

/-- C6: for all real `x`, `y`, `z`, the tuple `new(x, y, z, 1.0)`
compares equal (tolerance equality) to `new_point(x, y, z)`, and
`new(x, y, z, 0.0)` compares equal to `new_vector(x, y, z)`. -/
theorem new_with_unit_w_eq_constructors (x y z : ℚ) :
    Tuple.eq (Tuple.new (.fin x) (.fin y) (.fin z) (.fin 1))
        (Tuple.new_point (.fin x) (.fin y) (.fin z)) = true ∧
      Tuple.eq (Tuple.new (.fin x) (.fin y) (.fin z) (.fin 0))
        (Tuple.new_vector (.fin x) (.fin y) (.fin z)) = true := by
  constructor <;>
    · refine (Tuple.eq_fin_iff _ _ _ _ _ _ _ _).mpr ?_
      norm_num

/-- C10: a tuple whose `w` component is IEEE negative zero is
classified as a vector and not a point, and negating any
`new_vector(x, y, z)` (which flips `w = +0.0` to `-0.0`) still yields
a tuple on which `is_vector` is true. -/
theorem negZero_w_classified_vector (x y z : FP) :
    Tuple.is_vector ⟨x, y, z, .negZero⟩ = true ∧
      Tuple.is_point ⟨x, y, z, .negZero⟩ = false ∧
      (Tuple.neg (Tuple.new_vector x y z)).is_vector = true := by
  refine ⟨rfl, rfl, ?_⟩
  show (Tuple.mk x.fneg y.fneg z.fneg (FP.fneg (.fin 0))).is_vector = true
  simp [FP.fneg, Tuple.is_vector, FP.ieeeEq]

/-- C3: subtracting two points yields a vector; adding a vector to a
point or subtracting a vector from a point yields a point; adding or
subtracting two vectors yields a vector; no `w` combination is
rejected, and in particular adding two points yields `w = 2.0`. -/
theorem point_vector_w_algebra (p q u v : Tuple)
    (hp : p.is_point = true) (hq : q.is_point = true)
    (hu : u.is_vector = true) (hv : v.is_vector = true) :
    (p.sub q).is_vector = true ∧
      (p.sub v).is_point = true ∧
      (p.add v).is_point = true ∧
      (u.sub v).is_vector = true ∧
      (u.add v).is_vector = true ∧
      (p.add q).w = .fin 2 := by
  rw [Tuple.is_point_iff] at hp hq
  rw [Tuple.is_vector_iff] at hu hv
  have h2 : FP.fadd (.fin 1) (.fin 1) = .fin 2 := by
    show FP.fin (1 + 1) = .fin 2
    norm_num
  rcases hu with hu | hu <;> rcases hv with hv | hv <;>
    refine ⟨?_, ?_, ?_, ?_, ?_, ?_⟩ <;>
    simp [Tuple.sub, Tuple.add, Tuple.is_point, Tuple.is_vector, hp, hq,
      hu, hv, FP.fsub, FP.fneg, FP.fadd, FP.ieeeEq, h2] <;>
    norm_num

/-- C3 witness: the algebra instantiated at the concrete points
`(3,2,1)`, `(5,6,7)` and vectors `(1,2,3)`, `(5,6,7)`. -/
theorem point_vector_w_algebra_witness :
    ((Tuple.new_point (.fin 3) (.fin 2) (.fin 1)).sub
        (Tuple.new_point (.fin 5) (.fin 6) (.fin 7))).is_vector = true ∧
      ((Tuple.new_point (.fin 3) (.fin 2) (.fin 1)).sub
        (Tuple.new_vector (.fin 5) (.fin 6) (.fin 7))).is_point = true ∧
      ((Tuple.new_point (.fin 3) (.fin 2) (.fin 1)).add
        (Tuple.new_vector (.fin 5) (.fin 6) (.fin 7))).is_point = true ∧
      ((Tuple.new_vector (.fin 1) (.fin 2) (.fin 3)).sub
        (Tuple.new_vector (.fin 5) (.fin 6) (.fin 7))).is_vector = true ∧
      ((Tuple.new_vector (.fin 1) (.fin 2) (.fin 3)).add
        (Tuple.new_vector (.fin 5) (.fin 6) (.fin 7))).is_vector = true ∧
      ((Tuple.new_point (.fin 3) (.fin 2) (.fin 1)).add
        (Tuple.new_point (.fin 5) (.fin 6) (.fin 7))).w = .fin 2 :=
  point_vector_w_algebra
    (Tuple.new_point (.fin 3) (.fin 2) (.fin 1))
    (Tuple.new_point (.fin 5) (.fin 6) (.fin 7))
    (Tuple.new_vector (.fin 1) (.fin 2) (.fin 3))
    (Tuple.new_vector (.fin 5) (.fin 6) (.fin 7))
    rfl rfl rfl rfl

theorem FP.fneg_fin_ieeeEq (q : ℚ) :
    (FP.fneg (.fin q)).ieeeEq (.fin (-q)) = true := by
  by_cases h : q = 0
  · subst h; simp [FP.fneg, FP.ieeeEq]
  · simp [FP.fneg, h, FP.ieeeEq]

/-- C4: addition is the component-wise IEEE sum, subtraction the
component-wise difference, and negation the component-wise negation;
each result component comes only from the corresponding operand
components (first conjunct, over all tuples), and on finite rational
components the results are the exact rational sums, differences and
negations (negation stated up to IEEE equality, since negating `0`
yields `-0.0`). -/
theorem add_sub_neg_componentwise :
    (∀ a b : Tuple,
        a.add b = ⟨FP.fadd a.x b.x, FP.fadd a.y b.y,
          FP.fadd a.z b.z, FP.fadd a.w b.w⟩ ∧
        a.sub b = ⟨a.x.fsub b.x, a.y.fsub b.y, a.z.fsub b.z, a.w.fsub b.w⟩ ∧
        a.neg = ⟨a.x.fneg, a.y.fneg, a.z.fneg, a.w.fneg⟩) ∧
    (∀ px py pz pw qx qy qz qw : ℚ,
        Tuple.add ⟨.fin px, .fin py, .fin pz, .fin pw⟩
            ⟨.fin qx, .fin qy, .fin qz, .fin qw⟩ =
          ⟨.fin (px + qx), .fin (py + qy), .fin (pz + qz), .fin (pw + qw)⟩ ∧
        Tuple.sub ⟨.fin px, .fin py, .fin pz, .fin pw⟩
            ⟨.fin qx, .fin qy, .fin qz, .fin qw⟩ =
          ⟨.fin (px - qx), .fin (py - qy), .fin (pz - qz), .fin (pw - qw)⟩ ∧
        ((Tuple.neg ⟨.fin px, .fin py, .fin pz, .fin pw⟩).x.ieeeEq
            (.fin (-px)) = true ∧
          (Tuple.neg ⟨.fin px, .fin py, .fin pz, .fin pw⟩).y.ieeeEq
            (.fin (-py)) = true ∧
          (Tuple.neg ⟨.fin px, .fin py, .fin pz, .fin pw⟩).z.ieeeEq
            (.fin (-pz)) = true ∧
          (Tuple.neg ⟨.fin px, .fin py, .fin pz, .fin pw⟩).w.ieeeEq
            (.fin (-pw)) = true)) := by
  constructor
  · intro a b
    exact ⟨rfl, rfl, rfl⟩
  · intro px py pz pw qx qy qz qw
    refine ⟨rfl, ?_, FP.fneg_fin_ieeeEq px, FP.fneg_fin_ieeeEq py,
      FP.fneg_fin_ieeeEq pz, FP.fneg_fin_ieeeEq pw⟩
    simp [Tuple.sub, FP.fsub_fin_fin]

theorem FP.fdiv_zero_isInfOrNan (a : FP) :
    (a.fdiv (.fin 0)).isInfOrNan = true := by
  cases a <;> simp only [FP.fdiv, FP.isInfOrNan] <;>
    split_ifs <;> simp [FP.isInfOrNan]

/-- C7: every operation of the embedding is a total function, and
dividing any tuple by the scalar `0.0` yields a tuple each of whose
components is an IEEE infinity or NaN — a result is always returned,
never an error. -/
theorem div_by_zero_components_inf_or_nan (t : Tuple) :
    (t.div (.fin 0)).x.isInfOrNan = true ∧
      (t.div (.fin 0)).y.isInfOrNan = true ∧
      (t.div (.fin 0)).z.isInfOrNan = true ∧
      (t.div (.fin 0)).w.isInfOrNan = true :=
  ⟨FP.fdiv_zero_isInfOrNan t.x, FP.fdiv_zero_isInfOrNan t.y,
    FP.fdiv_zero_isInfOrNan t.z, FP.fdiv_zero_isInfOrNan t.w⟩

/-- C5 counterexample: at the scalar NaN, `s * t == t * s` fails — both
products are the all-NaN tuple, and NaN-containing tuples compare
unequal under the tolerance `PartialEq` (NaN comparisons are false). -/
theorem scalar_mul_comm_nan_counterexample :
    Tuple.eq (FP.mulTuple .nan (Tuple.new (.fin 1) (.fin 1) (.fin 1) (.fin 1)))
      ((Tuple.new (.fin 1) (.fin 1) (.fin 1) (.fin 1)).mul .nan) = false := rfl

/-- C5 amended: for every scalar `s` and tuple `t`, `s * t` and `t * s`
construct the identical tuple (both implementations compute
`s * component` for each component), and when `s` and the components
of `t` are finite rationals the two products compare `==` and `==` the
tuple of `t`'s components each multiplied by `s`; the `==` comparisons
need the finiteness proviso because a NaN or infinite product makes
tolerance equality fail even between identical tuples. -/
theorem scalar_mul_comm_amended :
    (∀ (s : FP) (t : Tuple), FP.mulTuple s t = t.mul s) ∧
    (∀ (s px py pz pw : ℚ),
      Tuple.eq (FP.mulTuple (.fin s) ⟨.fin px, .fin py, .fin pz, .fin pw⟩)
        (Tuple.mul ⟨.fin px, .fin py, .fin pz, .fin pw⟩ (.fin s)) = true ∧
      Tuple.eq (FP.mulTuple (.fin s) ⟨.fin px, .fin py, .fin pz, .fin pw⟩)
        ⟨.fin (s * px), .fin (s * py), .fin (s * pz), .fin (s * pw)⟩ = true) := by
  constructor
  · intro s t
    rfl
  · intro s px py pz pw
    constructor
    · exact Tuple.eq_self_of_finite _ (FP.fmul_fin_isFinite s px)
        (FP.fmul_fin_isFinite s py) (FP.fmul_fin_isFinite s pz)
        (FP.fmul_fin_isFinite s pw)
    · show Tuple.eq ⟨FP.fmul (.fin s) (.fin px), FP.fmul (.fin s) (.fin py),
        FP.fmul (.fin s) (.fin pz), FP.fmul (.fin s) (.fin pw)⟩
        ⟨.fin (s * px), .fin (s * py), .fin (s * pz), .fin (s * pw)⟩ = true
      simp [Tuple.eq, FP.fmul_fin_near]

/-- C8 counterexample: the tuple `(0, 0, 0, 0.999999)` does NOT compare
equal to the vector `(0, 0, 0)`: its `w` differs from `0.0` by
`0.999999`, far above the `1e-5` tolerance, refuting the claim that a
tuple with `w = 0.999999` is tolerance-equal to a vector. -/
theorem w_near_one_not_eq_vector :
    Tuple.eq ⟨.fin 0, .fin 0, .fin 0, .fin (999999 / 1000000)⟩
      (Tuple.new_vector (.fin 0) (.fin 0) (.fin 0)) = false := by
  rw [show Tuple.new_vector (.fin 0) (.fin 0) (.fin 0) =
    (⟨.fin 0, .fin 0, .fin 0, .fin 0⟩ : Tuple) from rfl]
  rw [Bool.eq_false_iff, Ne, Tuple.eq_fin_iff]
  intro h
  have hw := h.2.2.2
  rw [abs_lt] at hw
  have := hw.2
  norm_num at this

/-- C8 amended: a tuple with `w = 0.999999` (and any x, y, z) compares
equal, under the tolerance equality, to the POINT with the same x, y,
z (`w` differs from `1.0` by only `1e-6`), yet `is_point()` on that
tuple returns false (and `is_vector()` returns false as well). -/
theorem w_near_one_eq_point_not_is_point (x y z : ℚ) :
    Tuple.eq ⟨.fin x, .fin y, .fin z, .fin (999999 / 1000000)⟩
        (Tuple.new_point (.fin x) (.fin y) (.fin z)) = true ∧
      Tuple.is_point ⟨.fin x, .fin y, .fin z, .fin (999999 / 1000000)⟩ = false ∧
      Tuple.is_vector ⟨.fin x, .fin y, .fin z, .fin (999999 / 1000000)⟩ = false := by
  refine ⟨(Tuple.eq_fin_iff x y z (999999 / 1000000) x y z 1).mpr ?_, ?_, ?_⟩
  · norm_num [abs_lt]
  · simp [Tuple.is_point, FP.ieeeEq]
    norm_num
  · simp [Tuple.is_vector, FP.ieeeEq]

/-- C9 counterexample: a tuple with a NaN component does not compare
equal to itself — `NaN - NaN = NaN` and `NaN < EPS` is false — so
tuple equality is not reflexive over all tuples. -/
theorem nan_tuple_ne_self :
    Tuple.eq ⟨.nan, .fin 0, .fin 0, .fin 0⟩
      ⟨.nan, .fin 0, .fin 0, .fin 0⟩ = false := rfl

/-- C9 amended: tuple equality is symmetric (for every `a` and `b`,
`a == b` iff `b == a`), and every tuple all of whose components are
finite (a rational value or `-0.0`) compares equal to itself; the
finiteness proviso is needed because a NaN or infinite component
defeats self-comparison. -/
theorem eq_symm_and_finite_refl :
    (∀ a b : Tuple, a.eq b = b.eq a) ∧
    (∀ t : Tuple, t.x.isFinite = true → t.y.isFinite = true →
      t.z.isFinite = true → t.w.isFinite = true → t.eq t = true) :=
  ⟨Tuple.eq_comm, fun t hx hy hz hw => Tuple.eq_self_of_finite t hx hy hz hw⟩

/-- C9 witness: self-equality instantiated at the concrete point
`(1, 2, 3)`, whose components are all finite. -/
theorem eq_symm_and_finite_refl_witness :
    Tuple.eq (Tuple.new_point (.fin 1) (.fin 2) (.fin 3))
      (Tuple.new_point (.fin 1) (.fin 2) (.fin 3)) = true :=
  eq_symm_and_finite_refl.2 (Tuple.new_point (.fin 1) (.fin 2) (.fin 3))
    rfl rfl rfl rfl
